import Mathlib

/-!
Shallow embedding of the bearer-token verifiers of the repository
(src/python/03-auth-oauth-server/auth.py and
src/python/04-okta-oauth-server/auth.py).

Both files wrap the same pipeline around PyJWT, as configured at the call
site in `verify_token`:
  1. `self.jwks_client.get_signing_key_from_jwt(token)` — parse the token
     header, fetch/cache the JWKS, look up the key named by the header kid;
  2. `jwt.decode(token, key, algorithms=self.algorithms, issuer=self.issuer,
     audience=self.audience, options={"require": ["exp","iss","aud","sub"]})`
     — algorithm check, signature check, required-claim presence, expiry
     (`exp <= now` rejects, zero leeway), issuer equality, audience
     membership;
  3. provider-specific normalization of the verified payload into an
     `AccessToken`;
and a catch-all `except` that maps every raised error to `None`.

The embedding makes the environment explicit: the JWKS state (fetch success,
available key ids) and the current time are inputs, a token is the parsed
content of the raw string (header algorithm and key id, payload claims, a
flag for whether the signature verifies under the resolved key, a flag for
whether the string parses as a JWT at all).
-/

namespace MCPAuth

/-- Helper for `pySplit`: walk the characters with an accumulator holding
the current word reversed; whitespace ends the current word (if any). -/
def pySplitAux : List Char → List Char → List String
  | [], acc => if acc.isEmpty then [] else [String.mk acc.reverse]
  | c :: cs, acc =>
    if c.isWhitespace then
      if acc.isEmpty then pySplitAux cs []
      else String.mk acc.reverse :: pySplitAux cs []
    else pySplitAux cs (c :: acc)

/-- Python `str.split()` with no separator argument: split on runs of
whitespace and drop empty pieces. -/
def pySplit (s : String) : List String :=
  pySplitAux s.data []

/-- Shape of an Okta `scp` claim as the source distinguishes it with
`isinstance(scopes, str)`: either a single string or a list of strings. -/
inductive ScpClaim where
  | str : String → ScpClaim
  | strList : List String → ScpClaim
deriving DecidableEq

/-- The decoded JWT payload: the claims the two verifiers read.  Each claim
may be absent (`payload.get` in the source). -/
structure Payload where
  exp : Option Int
  iss : Option String
  aud : Option (List String)
  sub : Option String
  scope : Option String
  scp : Option ScpClaim
  cid : Option String
deriving DecidableEq

/-- A bearer token as received: the raw string plus the parsed content the
pipeline inspects.  `wellFormed` is whether the string parses as a JWT at
all; `sigValid` is whether its signature verifies under the JWKS key named
by `kid`. -/
structure Token where
  raw : String
  wellFormed : Bool
  alg : String
  kid : String
  sigValid : Bool
  payload : Payload
deriving DecidableEq

/-- The state of the outside world a `verify_token` call sees: whether the
JWKS endpoint fetch succeeds, which key ids the fetched set contains, and
the current time in epoch seconds. -/
structure JwksEnv where
  fetchOk : Bool
  keyIds : List String
  now : Int
deriving DecidableEq

/-- The failure kinds of the pipeline.  In the source each is a distinct
exception (`PyJWKClientError`, `DecodeError`, `InvalidSignatureError`,
`MissingRequiredClaimError`, `ExpiredSignatureError`, `InvalidIssuerError`,
`InvalidAudienceError`, or any other `Exception`); the façade catches all of
them. -/
inductive VerifyError where
  | fetchFailure
  | keyNotFound
  | malformedToken
  | invalidSignature
  | missingClaim
  | tokenExpired
  | issuerMismatch
  | audienceMismatch
  | internalError
deriving DecidableEq

/-- `mcp.server.auth.provider.AccessToken` as the two verifiers construct
it. -/
structure AccessToken where
  token : String
  client_id : String
  scopes : List String
  expires_at : Option Int
deriving DecidableEq

/-- The per-verifier configuration fixed in `__init__`: expected issuer,
expected audience, accepted algorithm list, JWKS endpoint. -/
structure VerifierConfig where
  issuer : String
  audience : String
  algorithms : List String
  jwksUrl : String
deriving DecidableEq

deriving instance DecidableEq for Except

/-- The claim validation `jwt.decode` performs with
`options={"require": ["exp","iss","aud","sub"]}`, `issuer=...`,
`audience=...` and no leeway: required-claim presence first
(`MissingRequiredClaimError`), then expiry (`exp <= now` raises
`ExpiredSignatureError`), issuer equality, audience membership. -/
def validateClaims (cfg : VerifierConfig) (now : Int) (p : Payload) :
    Except VerifyError Payload :=
  match p.exp, p.iss, p.aud, p.sub with
  | some e, some i, some a, some _ =>
    if e ≤ now then .error .tokenExpired
    else if i ≠ cfg.issuer then .error .issuerMismatch
    else if cfg.audience ∉ a then .error .audienceMismatch
    else .ok p
  | _, _, _, _ => .error .missingClaim

/-- Steps 1 and 2 of `verify_token`: key resolution
(`get_signing_key_from_jwt`: parse, fetch JWKS, look up kid) followed by
`jwt.decode` (algorithm in the configured list, signature, claims). -/
def jwtDecode (cfg : VerifierConfig) (env : JwksEnv) (t : Token) :
    Except VerifyError Payload :=
  if ¬ t.wellFormed then .error .malformedToken
  else if ¬ env.fetchOk then .error .fetchFailure
  else if t.kid ∉ env.keyIds then .error .keyNotFound
  else if t.alg ∉ cfg.algorithms then .error .malformedToken
  else if ¬ t.sigValid then .error .invalidSignature
  else validateClaims cfg env.now t.payload

/-- The Auth0 scope computation:
`scope_str = payload.get("scope", ""); scopes = scope_str.split() if scope_str else []`. -/
def auth0Scopes (scope : Option String) : List String :=
  let scope_str := scope.getD ""
  if scope_str ≠ "" then pySplit scope_str else []

/-- The Okta scope computation:
`scopes = payload.get("scp", []); if isinstance(scopes, str): scopes = scopes.split()`. -/
def oktaScopes (scp : Option ScpClaim) : List String :=
  match scp with
  | none => []
  | some (.strList l) => l
  | some (.str s) => pySplit s

/-- The Auth0 normalization of a verified payload into an `AccessToken`:
scopes from the `scope` claim, `client_id = payload.get("sub", "unknown")`,
`expires_at = payload.get("exp")`. -/
def auth0Normalize (raw : String) (p : Payload) : AccessToken :=
  { token := raw
    client_id := p.sub.getD "unknown"
    scopes := auth0Scopes p.scope
    expires_at := p.exp }

/-- The Okta normalization of a verified payload: scopes from the `scp`
claim, `client_id = payload.get("cid", payload.get("sub", "unknown"))`,
`expires_at = payload.get("exp")`. -/
def oktaNormalize (raw : String) (p : Payload) : AccessToken :=
  { token := raw
    client_id := p.cid.getD (p.sub.getD "unknown")
    scopes := oktaScopes p.scp
    expires_at := p.exp }

namespace Auth0TokenVerifier

/-- `Auth0TokenVerifier.__init__(domain, audience)`. -/
def make (domain audience : String) : VerifierConfig :=
  { issuer := "https://" ++ domain ++ "/"
    audience := audience
    algorithms := ["RS256"]
    jwksUrl := "https://" ++ domain ++ "/.well-known/jwks.json" }

/-- `Auth0TokenVerifier.verify_token`: the pipeline with every raised error
mapped to `None` by the catch-all handlers. -/
def verify_token (cfg : VerifierConfig) (env : JwksEnv) (t : Token) :
    Option AccessToken :=
  match jwtDecode cfg env t with
  | .error _ => none
  | .ok p => some (auth0Normalize t.raw p)

end Auth0TokenVerifier

namespace OktaTokenVerifier

/-- `OktaTokenVerifier.__init__(domain, audience, auth_server_id)`. -/
def make (domain audience authServerId : String) : VerifierConfig :=
  { issuer := "https://" ++ domain ++ "/oauth2/" ++ authServerId
    audience := audience
    algorithms := ["RS256"]
    jwksUrl := "https://" ++ domain ++ "/oauth2/" ++ authServerId ++ "/v1/keys" }

/-- `OktaTokenVerifier.verify_token`: the pipeline with every raised error
mapped to `None` by the catch-all handlers. -/
def verify_token (cfg : VerifierConfig) (env : JwksEnv) (t : Token) :
    Option AccessToken :=
  match jwtDecode cfg env t with
  | .error _ => none
  | .ok p => some (oktaNormalize t.raw p)

end OktaTokenVerifier

/-- A sample Auth0 configuration used by concrete witnesses. -/
def cfgA : VerifierConfig := Auth0TokenVerifier.make "example.auth0.com" "https://api.example.com"

/-- A sample Okta configuration used by concrete witnesses. -/
def cfgO : VerifierConfig := OktaTokenVerifier.make "example.okta.com" "https://api.example.com" "default"

/-- A sample environment: fetch succeeds, one key id, now = 1000. -/
def envOk : JwksEnv := { fetchOk := true, keyIds := ["kid1"], now := 1000 }

/-- A payload carrying every claim both verifiers need, Auth0 style. -/
def payloadA : Payload :=
  { exp := some 2000
    iss := some "https://example.auth0.com/"
    aud := some ["https://api.example.com"]
    sub := some "auth0|abc123"
    scope := some "read write"
    scp := none
    cid := none }

/-- A well-formed, correctly signed Auth0-style token. -/
def tokenA : Token :=
  { raw := "tokA", wellFormed := true, alg := "RS256", kid := "kid1",
    sigValid := true, payload := payloadA }

/-- Success characterization of the claim validation step. -/
theorem validateClaims_ok_iff (cfg : VerifierConfig) (now : Int) (p q : Payload) :
    validateClaims cfg now p = .ok q ↔
      q = p ∧ (∃ e, p.exp = some e ∧ now < e) ∧ p.iss = some cfg.issuer ∧
      (∃ a, p.aud = some a ∧ cfg.audience ∈ a) ∧ ∃ s, p.sub = some s := by
  unfold validateClaims
  rcases hexp : p.exp with _ | e <;> rcases hiss : p.iss with _ | i <;>
    rcases haud : p.aud with _ | a <;> rcases hsub : p.sub with _ | s <;>
      simp [hexp, hiss, haud, hsub]
  constructor
  · intro h
    by_cases h1 : e ≤ now
    · rw [if_pos h1] at h
      exact absurd h (by simp)
    · rw [if_neg h1] at h
      by_cases h2 : i = cfg.issuer
      · rw [if_pos h2] at h
        by_cases h3 : cfg.audience ∈ a
        · rw [if_pos h3] at h
          injection h with h
          subst h
          exact ⟨rfl, by omega, h2, h3⟩
        · rw [if_neg h3] at h
          exact absurd h (by simp)
      · rw [if_neg h2] at h
        exact absurd h (by simp)
  · rintro ⟨rfl, hlt, h2, h3⟩
    rw [if_neg (by omega), if_pos h2, if_pos h3]

/-- Success characterization of the key-resolution-plus-decode step. -/
theorem jwtDecode_ok_iff (cfg : VerifierConfig) (env : JwksEnv) (t : Token) (p : Payload) :
    jwtDecode cfg env t = .ok p ↔
      t.wellFormed = true ∧ env.fetchOk = true ∧ t.kid ∈ env.keyIds ∧
      t.alg ∈ cfg.algorithms ∧ t.sigValid = true ∧
      validateClaims cfg env.now t.payload = .ok p := by
  unfold jwtDecode
  by_cases h1 : t.wellFormed = true <;> by_cases h2 : env.fetchOk = true <;>
    by_cases h3 : t.kid ∈ env.keyIds <;> by_cases h4 : t.alg ∈ cfg.algorithms <;>
      by_cases h5 : t.sigValid = true <;> simp [h1, h2, h3, h4, h5]

/-- A successful decode returns the token payload unchanged. -/
theorem jwtDecode_ok_payload {cfg : VerifierConfig} {env : JwksEnv} {t : Token}
    {p : Payload} (h : jwtDecode cfg env t = .ok p) : p = t.payload := by
  have h6 := ((jwtDecode_ok_iff cfg env t p).1 h).2.2.2.2.2
  exact ((validateClaims_ok_iff cfg env.now t.payload p).1 h6).1

/-- The Auth0 façade succeeds exactly when decoding succeeds, and then
returns the Auth0 normalization of the payload. -/
theorem auth0_verify_some_iff (cfg : VerifierConfig) (env : JwksEnv) (t : Token)
    (g : AccessToken) :
    Auth0TokenVerifier.verify_token cfg env t = some g ↔
      jwtDecode cfg env t = .ok t.payload ∧ g = auth0Normalize t.raw t.payload := by
  unfold Auth0TokenVerifier.verify_token
  cases hj : jwtDecode cfg env t with
  | error e => simp [hj]
  | ok p =>
    have hp := jwtDecode_ok_payload hj
    subst hp
    simp [hj, eq_comm]

/-- The Okta façade succeeds exactly when decoding succeeds, and then
returns the Okta normalization of the payload. -/
theorem okta_verify_some_iff (cfg : VerifierConfig) (env : JwksEnv) (t : Token)
    (g : AccessToken) :
    OktaTokenVerifier.verify_token cfg env t = some g ↔
      jwtDecode cfg env t = .ok t.payload ∧ g = oktaNormalize t.raw t.payload := by
  unfold OktaTokenVerifier.verify_token
  cases hj : jwtDecode cfg env t with
  | error e => simp [hj]
  | ok p =>
    have hp := jwtDecode_ok_payload hj
    subst hp
    simp [hj, eq_comm]

/-- The Auth0 façade rejects exactly when the pipeline raises. -/
theorem auth0_verify_none_iff (cfg : VerifierConfig) (env : JwksEnv) (t : Token) :
    Auth0TokenVerifier.verify_token cfg env t = none ↔
      ∃ e, jwtDecode cfg env t = .error e := by
  unfold Auth0TokenVerifier.verify_token
  cases hj : jwtDecode cfg env t <;> simp [hj]

/-- The Okta façade rejects exactly when the pipeline raises. -/
theorem okta_verify_none_iff (cfg : VerifierConfig) (env : JwksEnv) (t : Token) :
    OktaTokenVerifier.verify_token cfg env t = none ↔
      ∃ e, jwtDecode cfg env t = .error e := by
  unfold OktaTokenVerifier.verify_token
  cases hj : jwtDecode cfg env t <;> simp [hj]

/-- A payload with no claims at all. -/
def payloadNone : Payload :=
  { exp := none, iss := none, aud := none, sub := none,
    scope := none, scp := none, cid := none }

/-- A string that does not parse as a JWT. -/
def tokenBad : Token :=
  { raw := "not-a-jwt", wellFormed := false, alg := "none", kid := "",
    sigValid := false, payload := payloadNone }

/-- An otherwise-valid token whose expiry equals the sample current time. -/
def tokenAtNow : Token :=
  { tokenA with payload := { payloadA with exp := some 1000 } }

/-- An otherwise-valid token expiring one second after the sample current
time. -/
def tokenJustAfter : Token :=
  { tokenA with payload := { payloadA with exp := some 1001 } }

/-- An otherwise-valid, correctly signed token missing its `sub` claim. -/
def tokenNoSub : Token :=
  { tokenA with payload := { payloadA with sub := none } }

/-- An otherwise-valid token declaring the HS256 algorithm. -/
def tokenHS : Token := { tokenA with alg := "HS256" }

/-- C1: for every failure kind the pipeline can raise, both verifiers
return the single rejection outcome `none` and never propagate the error;
any two failing calls, whatever their failure kinds, are observationally
identical. -/
theorem uniform_rejection (cfg cfg' : VerifierConfig) (env env' : JwksEnv)
    (t t' : Token) (e e' : VerifyError)
    (h : jwtDecode cfg env t = .error e)
    (h' : jwtDecode cfg' env' t' = .error e') :
    Auth0TokenVerifier.verify_token cfg env t = none ∧
    OktaTokenVerifier.verify_token cfg env t = none ∧
    Auth0TokenVerifier.verify_token cfg env t =
      Auth0TokenVerifier.verify_token cfg' env' t' ∧
    OktaTokenVerifier.verify_token cfg env t =
      OktaTokenVerifier.verify_token cfg' env' t' := by
  unfold Auth0TokenVerifier.verify_token OktaTokenVerifier.verify_token
  rw [h, h']
  exact ⟨rfl, rfl, rfl, rfl⟩

/-- Witness for C1 at two distinct failure kinds: a malformed token and an
expired token are both rejected and indistinguishable from the outside. -/
theorem uniform_rejection_witness :
    Auth0TokenVerifier.verify_token cfgA envOk tokenBad = none ∧
    OktaTokenVerifier.verify_token cfgA envOk tokenBad = none ∧
    Auth0TokenVerifier.verify_token cfgA envOk tokenBad =
      Auth0TokenVerifier.verify_token cfgA envOk tokenAtNow ∧
    OktaTokenVerifier.verify_token cfgA envOk tokenBad =
      OktaTokenVerifier.verify_token cfgA envOk tokenAtNow :=
  uniform_rejection cfgA cfgA envOk envOk tokenBad tokenAtNow
    .malformedToken .tokenExpired (by decide) (by decide)

/-- C3: with zero leeway, an otherwise-valid token whose expiry equals the
current time is rejected, and one expiring one second later is accepted. -/
theorem expiry_boundary (cfg : VerifierConfig) (env : JwksEnv) (t : Token)
    (e : Int)
    (hwf : t.wellFormed = true) (hfo : env.fetchOk = true)
    (hk : t.kid ∈ env.keyIds) (hal : t.alg ∈ cfg.algorithms)
    (hsg : t.sigValid = true)
    (hexp : t.payload.exp = some e) (hiss : t.payload.iss = some cfg.issuer)
    (haud : ∃ a, t.payload.aud = some a ∧ cfg.audience ∈ a)
    (hsub : ∃ s, t.payload.sub = some s) :
    (e = env.now →
      Auth0TokenVerifier.verify_token cfg env t = none ∧
      OktaTokenVerifier.verify_token cfg env t = none) ∧
    (e = env.now + 1 →
      (Auth0TokenVerifier.verify_token cfg env t).isSome = true ∧
      (OktaTokenVerifier.verify_token cfg env t).isSome = true) := by
  have hok : ∀ p, jwtDecode cfg env t = .ok p → env.now < e := by
    intro p hj
    have hv := ((jwtDecode_ok_iff cfg env t p).1 hj).2.2.2.2.2
    obtain ⟨-, ⟨e1, he1, hlt⟩, -⟩ :=
      (validateClaims_ok_iff cfg env.now t.payload p).1 hv
    rw [hexp] at he1
    injection he1 with he1
    omega
  constructor
  · intro he
    cases hj : jwtDecode cfg env t with
    | error e0 =>
      exact ⟨(auth0_verify_none_iff cfg env t).2 ⟨e0, hj⟩,
             (okta_verify_none_iff cfg env t).2 ⟨e0, hj⟩⟩
    | ok p => exact absurd (hok p hj) (by omega)
  · intro he
    obtain ⟨a, ha, hmem⟩ := haud
    obtain ⟨s, hs⟩ := hsub
    have hv : validateClaims cfg env.now t.payload = .ok t.payload :=
      (validateClaims_ok_iff cfg env.now t.payload t.payload).2
        ⟨rfl, ⟨e, hexp, by omega⟩, hiss, ⟨a, ha, hmem⟩, ⟨s, hs⟩⟩
    have hj : jwtDecode cfg env t = .ok t.payload :=
      (jwtDecode_ok_iff cfg env t t.payload).2 ⟨hwf, hfo, hk, hal, hsg, hv⟩
    constructor
    · have hA := (auth0_verify_some_iff cfg env t
        (auth0Normalize t.raw t.payload)).2 ⟨hj, rfl⟩
      rw [hA]
      rfl
    · have hO := (okta_verify_some_iff cfg env t
        (oktaNormalize t.raw t.payload)).2 ⟨hj, rfl⟩
      rw [hO]
      rfl

/-- Witness for C3: at `now = 1000`, expiry 1000 is rejected and expiry
1001 is accepted. -/
theorem expiry_boundary_witness :
    Auth0TokenVerifier.verify_token cfgA envOk tokenAtNow = none ∧
    (Auth0TokenVerifier.verify_token cfgA envOk tokenJustAfter).isSome = true := by
  constructor
  · exact ((expiry_boundary cfgA envOk tokenAtNow 1000 (by decide) (by decide)
      (by decide) (by decide) (by decide) (by decide) (by decide)
      ⟨["https://api.example.com"], by decide, by decide⟩
      ⟨"auth0|abc123", by decide⟩).1 rfl).1
  · exact ((expiry_boundary cfgA envOk tokenJustAfter 1001 (by decide) (by decide)
      (by decide) (by decide) (by decide) (by decide) (by decide)
      ⟨["https://api.example.com"], by decide, by decide⟩
      ⟨"auth0|abc123", by decide⟩).2 rfl).1

/-- C4: both constructors fix the accepted algorithm list to exactly
`["RS256"]`, and every token declaring any other algorithm is rejected,
whatever its claims, environment, or configuration strings. -/
theorem rs256_only (domain audience sid : String) (env : JwksEnv) (t : Token)
    (h : t.alg ≠ "RS256") :
    Auth0TokenVerifier.verify_token (Auth0TokenVerifier.make domain audience)
      env t = none ∧
    OktaTokenVerifier.verify_token (OktaTokenVerifier.make domain audience sid)
      env t = none ∧
    (Auth0TokenVerifier.make domain audience).algorithms = ["RS256"] ∧
    (OktaTokenVerifier.make domain audience sid).algorithms = ["RS256"] := by
  refine ⟨?_, ?_, rfl, rfl⟩
  · rw [auth0_verify_none_iff]
    cases hj : jwtDecode (Auth0TokenVerifier.make domain audience) env t with
    | error e0 => exact ⟨e0, rfl⟩
    | ok p =>
      have hal := ((jwtDecode_ok_iff _ env t p).1 hj).2.2.2.1
      simp [Auth0TokenVerifier.make] at hal
      exact absurd hal h
  · rw [okta_verify_none_iff]
    cases hj : jwtDecode (OktaTokenVerifier.make domain audience sid) env t with
    | error e0 => exact ⟨e0, rfl⟩
    | ok p =>
      have hal := ((jwtDecode_ok_iff _ env t p).1 hj).2.2.2.1
      simp [OktaTokenVerifier.make] at hal
      exact absurd hal h

/-- Witness for C4: an otherwise-valid token declaring HS256 is rejected by
both verifiers. -/
theorem rs256_only_witness :
    Auth0TokenVerifier.verify_token
      (Auth0TokenVerifier.make "example.auth0.com" "https://api.example.com")
      envOk tokenHS = none ∧
    OktaTokenVerifier.verify_token
      (OktaTokenVerifier.make "example.auth0.com" "https://api.example.com" "default")
      envOk tokenHS = none ∧
    (Auth0TokenVerifier.make "example.auth0.com" "https://api.example.com").algorithms =
      ["RS256"] ∧
    (OktaTokenVerifier.make "example.auth0.com" "https://api.example.com" "default").algorithms =
      ["RS256"] :=
  rs256_only "example.auth0.com" "https://api.example.com" "default" envOk tokenHS
    (by decide)

/-- C5: a token lacking any of exp, iss, aud, sub is rejected by both
verifiers regardless of signature validity, and any returned grant implies
all four claims were present. -/
theorem required_claims_enforced (cfg : VerifierConfig) (env : JwksEnv)
    (t : Token) :
    ((t.payload.exp = none ∨ t.payload.iss = none ∨ t.payload.aud = none ∨
        t.payload.sub = none) →
      Auth0TokenVerifier.verify_token cfg env t = none ∧
      OktaTokenVerifier.verify_token cfg env t = none) ∧
    (∀ g, (Auth0TokenVerifier.verify_token cfg env t = some g ∨
           OktaTokenVerifier.verify_token cfg env t = some g) →
      t.payload.exp.isSome = true ∧ t.payload.iss.isSome = true ∧
      t.payload.aud.isSome = true ∧ t.payload.sub.isSome = true) := by
  have key : ∀ p, jwtDecode cfg env t = .ok p →
      t.payload.exp.isSome = true ∧ t.payload.iss.isSome = true ∧
      t.payload.aud.isSome = true ∧ t.payload.sub.isSome = true := by
    intro p hj
    have hv := ((jwtDecode_ok_iff cfg env t p).1 hj).2.2.2.2.2
    obtain ⟨-, ⟨e1, he1, -⟩, hi, ⟨a1, ha1, -⟩, ⟨s1, hs1⟩⟩ :=
      (validateClaims_ok_iff cfg env.now t.payload p).1 hv
    exact ⟨by simp [he1], by simp [hi], by simp [ha1], by simp [hs1]⟩
  constructor
  · intro hmiss
    cases hj : jwtDecode cfg env t with
    | error e0 =>
      exact ⟨(auth0_verify_none_iff cfg env t).2 ⟨e0, hj⟩,
             (okta_verify_none_iff cfg env t).2 ⟨e0, hj⟩⟩
    | ok p =>
      exfalso
      obtain ⟨h1, h2, h3, h4⟩ := key p hj
      rcases hmiss with h | h | h | h
      · rw [h] at h1
        simp at h1
      · rw [h] at h2
        simp at h2
      · rw [h] at h3
        simp at h3
      · rw [h] at h4
        simp at h4
  · intro g hg
    rcases hg with hg | hg
    · exact key _ ((auth0_verify_some_iff cfg env t g).1 hg).1
    · exact key _ ((okta_verify_some_iff cfg env t g).1 hg).1

/-- Witness for C5: a correctly signed token missing `sub` is rejected by
both verifiers. -/
theorem required_claims_enforced_witness :
    Auth0TokenVerifier.verify_token cfgA envOk tokenNoSub = none ∧
    OktaTokenVerifier.verify_token cfgA envOk tokenNoSub = none :=
  (required_claims_enforced cfgA envOk tokenNoSub).1
    (Or.inr (Or.inr (Or.inr (by decide))))

/-- An Okta-style payload carrying every claim the Okta verifier reads. -/
def payloadO : Payload :=
  { exp := some 2000
    iss := some "https://example.okta.com/oauth2/default"
    aud := some ["https://api.example.com"]
    sub := some "user1"
    scope := none
    scp := some (.strList ["read", "write"])
    cid := some "0oaXYZ" }

/-- A well-formed, correctly signed Okta-style token. -/
def tokenO : Token :=
  { raw := "tokO", wellFormed := true, alg := "RS256", kid := "kid1",
    sigValid := true, payload := payloadO }

/-- An Auth0-style token whose scope claim repeats the same scope. -/
def tokenDup : Token :=
  { tokenA with payload := { payloadA with scope := some "read read" } }

/-- An Okta-style token whose scp list repeats the same scope. -/
def tokenDupO : Token :=
  { tokenO with payload := { payloadO with scp := some (.strList ["read", "read"]) } }

/-- The grant the Auth0 verifier returns for `tokenDup`. -/
def grantDup : AccessToken :=
  { token := "tokA", client_id := "auth0|abc123",
    scopes := ["read", "read"], expires_at := some 2000 }

/-- The grant the Auth0 verifier returns for `tokenA`. -/
def grantA : AccessToken :=
  { token := "tokA", client_id := "auth0|abc123",
    scopes := ["read", "write"], expires_at := some 2000 }

/-- The grant the Okta verifier returns for `tokenO`. -/
def grantO : AccessToken :=
  { token := "tokO", client_id := "0oaXYZ",
    scopes := ["read", "write"], expires_at := some 2000 }

/-- An Auth0-style valid token with no scope claim at all. -/
def tokenNoScope : Token :=
  { tokenA with payload := { payloadA with scope := none } }

/-- An Okta-style valid token with no scp claim at all. -/
def tokenNoScp : Token :=
  { tokenO with payload := { payloadO with scp := none } }

/-- C2 counterexample: a verified payload whose scope claim contains the
same scope twice yields a grant in which that scope appears twice — the
scopes are not deduplicated, for either provider. -/
theorem scope_dedup_counterexample :
    Auth0TokenVerifier.verify_token cfgA envOk tokenDup = some grantDup ∧
    List.count "read" grantDup.scopes = 2 ∧
    OktaTokenVerifier.verify_token cfgO envOk tokenDupO =
      some { token := "tokO", client_id := "0oaXYZ",
             scopes := ["read", "read"], expires_at := some 2000 } := by
  decide

/-- C2 amended: the scopes of a returned grant preserve multiplicity — each
scope occurs in the grant exactly as many times as the code's scope
computation produces it from the claim (duplicates are kept, not
removed). -/
theorem scope_multiplicity_preserved (cfg : VerifierConfig) (env : JwksEnv)
    (t : Token) (g : AccessToken) (s : String) :
    (Auth0TokenVerifier.verify_token cfg env t = some g →
      List.count s g.scopes = List.count s (auth0Scopes t.payload.scope)) ∧
    (OktaTokenVerifier.verify_token cfg env t = some g →
      List.count s g.scopes = List.count s (oktaScopes t.payload.scp)) := by
  constructor
  · intro h
    obtain ⟨-, rfl⟩ := (auth0_verify_some_iff cfg env t g).1 h
    rfl
  · intro h
    obtain ⟨-, rfl⟩ := (okta_verify_some_iff cfg env t g).1 h
    rfl

/-- Witness for amended C2: for the duplicated-scope token the grant
carries the scope twice. -/
theorem scope_multiplicity_preserved_witness :
    List.count "read" grantDup.scopes =
      List.count "read" (auth0Scopes tokenDup.payload.scope) ∧
    List.count "read" grantDup.scopes = 2 :=
  ⟨(scope_multiplicity_preserved cfgA envOk tokenDup grantDup "read").1
      (by decide),
   by decide⟩

/-- C6: every grant the Auth0 verifier returns takes its scopes as the
whitespace-split of the scope claim and its client id from the sub
claim. -/
theorem auth0_mapping (cfg : VerifierConfig) (env : JwksEnv) (t : Token)
    (g : AccessToken)
    (h : Auth0TokenVerifier.verify_token cfg env t = some g) :
    (∀ str, t.payload.scope = some str → g.scopes = pySplit str) ∧
    ∃ s, t.payload.sub = some s ∧ g.client_id = s := by
  obtain ⟨hj, rfl⟩ := (auth0_verify_some_iff cfg env t g).1 h
  have hv := ((jwtDecode_ok_iff cfg env t t.payload).1 hj).2.2.2.2.2
  obtain ⟨-, -, -, -, ⟨s, hs⟩⟩ :=
    (validateClaims_ok_iff cfg env.now t.payload t.payload).1 hv
  constructor
  · intro str hstr
    show auth0Scopes t.payload.scope = pySplit str
    rw [hstr]
    by_cases hne : str = ""
    · subst hne
      decide
    · simp [auth0Scopes, hne]
  · refine ⟨s, hs, ?_⟩
    show t.payload.sub.getD "unknown" = s
    rw [hs]
    rfl

/-- Witness for C6: the spec's concrete Provider A case. -/
theorem auth0_mapping_witness :
    Auth0TokenVerifier.verify_token cfgA envOk tokenA = some grantA ∧
    grantA.scopes = ["read", "write"] ∧ grantA.client_id = "auth0|abc123" := by
  refine ⟨by decide, ?_, ?_⟩
  · have h := (auth0_mapping cfgA envOk tokenA grantA (by decide)).1
      "read write" (by decide)
    rw [h]
    decide
  · obtain ⟨s, hs, hc⟩ := (auth0_mapping cfgA envOk tokenA grantA (by decide)).2
    have hs2 : some "auth0|abc123" = some s := hs
    injection hs2 with hs2
    rw [hc, ← hs2]

/-- C7: every grant the Okta verifier returns takes its scopes from the scp
claim (as-is when a list, whitespace-split when a string) and its client id
from cid, falling back to sub, then to the literal "unknown". -/
theorem okta_mapping (cfg : VerifierConfig) (env : JwksEnv) (t : Token)
    (g : AccessToken)
    (h : OktaTokenVerifier.verify_token cfg env t = some g) :
    (∀ l, t.payload.scp = some (.strList l) → g.scopes = l) ∧
    (∀ str, t.payload.scp = some (.str str) → g.scopes = pySplit str) ∧
    g.client_id = t.payload.cid.getD (t.payload.sub.getD "unknown") := by
  obtain ⟨hj, rfl⟩ := (okta_verify_some_iff cfg env t g).1 h
  refine ⟨?_, ?_, rfl⟩
  · intro l hl
    show oktaScopes t.payload.scp = l
    rw [hl]
    rfl
  · intro str hstr
    show oktaScopes t.payload.scp = pySplit str
    rw [hstr]
    rfl

/-- Witness for C7: the spec's concrete Provider B case. -/
theorem okta_mapping_witness :
    OktaTokenVerifier.verify_token cfgO envOk tokenO = some grantO ∧
    grantO.scopes = ["read", "write"] ∧ grantO.client_id = "0oaXYZ" := by
  refine ⟨by decide, ?_, by decide⟩
  exact (okta_mapping cfgO envOk tokenO grantO (by decide)).1
    ["read", "write"] (by decide)

/-- C8: a token that passes every validation check but carries no scope
claim yields a grant with an empty scope list for the respective provider —
no rejection and no error. -/
theorem missing_scope_empty (cfg : VerifierConfig) (env : JwksEnv) (t : Token)
    (p : Payload) (h : jwtDecode cfg env t = .ok p) :
    (t.payload.scope = none →
      Auth0TokenVerifier.verify_token cfg env t =
        some (auth0Normalize t.raw t.payload) ∧
      (auth0Normalize t.raw t.payload).scopes = []) ∧
    (t.payload.scp = none →
      OktaTokenVerifier.verify_token cfg env t =
        some (oktaNormalize t.raw t.payload) ∧
      (oktaNormalize t.raw t.payload).scopes = []) := by
  have hp := jwtDecode_ok_payload h
  subst hp
  constructor
  · intro hsc
    refine ⟨(auth0_verify_some_iff cfg env t _).2 ⟨h, rfl⟩, ?_⟩
    show auth0Scopes t.payload.scope = []
    rw [hsc]
    decide
  · intro hsc
    refine ⟨(okta_verify_some_iff cfg env t _).2 ⟨h, rfl⟩, ?_⟩
    show oktaScopes t.payload.scp = []
    rw [hsc]
    rfl

/-- Witness for C8: scope-less valid tokens for both providers yield grants
with empty scopes. -/
theorem missing_scope_empty_witness :
    Auth0TokenVerifier.verify_token cfgA envOk tokenNoScope =
      some (auth0Normalize tokenNoScope.raw tokenNoScope.payload) ∧
    (auth0Normalize tokenNoScope.raw tokenNoScope.payload).scopes = [] ∧
    OktaTokenVerifier.verify_token cfgO envOk tokenNoScp =
      some (oktaNormalize tokenNoScp.raw tokenNoScp.payload) ∧
    (oktaNormalize tokenNoScp.raw tokenNoScp.payload).scopes = [] := by
  obtain ⟨h1, h2⟩ := (missing_scope_empty cfgA envOk tokenNoScope
    tokenNoScope.payload (by decide)).1 (by decide)
  obtain ⟨h3, h4⟩ := (missing_scope_empty cfgO envOk tokenNoScp
    tokenNoScp.payload (by decide)).2 (by decide)
  exact ⟨h1, h2, h3, h4⟩

/-- C10: because sub is a required claim, the "unknown" fallback is
unreachable — an Auth0 grant's client id is always the sub claim, and an
Okta grant's client id is the cid claim when present, otherwise the sub
claim. -/
theorem fallback_unreachable (cfg : VerifierConfig) (env : JwksEnv)
    (t : Token) (g : AccessToken) :
    (Auth0TokenVerifier.verify_token cfg env t = some g →
      ∃ s, t.payload.sub = some s ∧ g.client_id = s) ∧
    (OktaTokenVerifier.verify_token cfg env t = some g →
      ∃ s, t.payload.sub = some s ∧
        g.client_id = t.payload.cid.getD s) := by
  constructor
  · intro h
    obtain ⟨hj, rfl⟩ := (auth0_verify_some_iff cfg env t g).1 h
    have hv := ((jwtDecode_ok_iff cfg env t t.payload).1 hj).2.2.2.2.2
    obtain ⟨-, -, -, -, ⟨s, hs⟩⟩ :=
      (validateClaims_ok_iff cfg env.now t.payload t.payload).1 hv
    refine ⟨s, hs, ?_⟩
    show t.payload.sub.getD "unknown" = s
    rw [hs]
    rfl
  · intro h
    obtain ⟨hj, rfl⟩ := (okta_verify_some_iff cfg env t g).1 h
    have hv := ((jwtDecode_ok_iff cfg env t t.payload).1 hj).2.2.2.2.2
    obtain ⟨-, -, -, -, ⟨s, hs⟩⟩ :=
      (validateClaims_ok_iff cfg env.now t.payload t.payload).1 hv
    refine ⟨s, hs, ?_⟩
    show t.payload.cid.getD (t.payload.sub.getD "unknown") =
      t.payload.cid.getD s
    rw [hs]
    rfl

/-- Witness for C10: at the sample tokens the Okta grant takes cid and the
Auth0 grant takes sub. -/
theorem fallback_unreachable_witness :
    (∃ s, tokenO.payload.sub = some s ∧
        grantO.client_id = tokenO.payload.cid.getD s) ∧
    ∃ s, tokenA.payload.sub = some s ∧ grantA.client_id = s :=
  ⟨(fallback_unreachable cfgO envOk tokenO grantO).2 (by decide),
   (fallback_unreachable cfgA envOk tokenA grantA).1 (by decide)⟩

end MCPAuth
